import Mathlib

/-!
Shallow embedding of `src/server/ua_session_manager.c` (open62541 session
manager) together with theorems settling the specification claims.

Modelling conventions:
* `UA_UInt32` fields are `Nat` with arithmetic reduced modulo `2 ^ 32` where
  the C code can overflow (`lastSessionId++`, `currentSessionCount++`).
* Pointers that the code may null-check are `Option`; an operation whose C
  body dereferences a possibly-null handle without a check is wrapped in an
  `Option`-returning function that yields `none` (crash / undefined
  behaviour) on the null handle, and `some result` otherwise.
* The heap of `UA_SecureChannel` objects is a map from channel handles
  (`Nat`) to the channel's `session` slot; the only write the session
  manager performs on a channel is clearing that slot.
* Memory allocation in `createSession` is an oracle argument `allocOk`.
-/

set_option maxHeartbeats 1000000

/-- Numeric value of the OPC UA status code `UA_STATUSCODE_GOOD`.
Modelled from the spec: the header `ua_statuscodes.h` is not part of the
excerpt; these are the standard OPC UA status-code values the spec names. -/
def UA_STATUSCODE_GOOD : Nat := 0

/-- Numeric value of `UA_STATUSCODE_BADINTERNALERROR` (see `UA_STATUSCODE_GOOD`). -/
def UA_STATUSCODE_BADINTERNALERROR : Nat := 0x80020000

/-- Numeric value of `UA_STATUSCODE_BADOUTOFMEMORY` (see `UA_STATUSCODE_GOOD`). -/
def UA_STATUSCODE_BADOUTOFMEMORY : Nat := 0x80030000

/-- Numeric value of `UA_STATUSCODE_BADNOTFOUND` (see `UA_STATUSCODE_GOOD`).
The session manager source never returns this code; it is needed to state
claims that distinguish a not-found report from an internal error. -/
def UA_STATUSCODE_BADNOTFOUND : Nat := 0x803E0000

/-- Numeric value of `UA_STATUSCODE_BADTOOMANYSESSIONS` (see `UA_STATUSCODE_GOOD`). -/
def UA_STATUSCODE_BADTOOMANYSESSIONS : Nat := 0x80560000

/-- A namespace-qualified numeric node identifier.  The session manager only
ever constructs numeric identifiers (`UA_NODEIDTYPE_NUMERIC`), so the
identifier variants other than the numeric one are elided. -/
structure UA_NodeId where
  namespaceIndex : Nat
  identifierNumeric : Nat
deriving DecidableEq, Repr

/-- Modelled from the spec: `UA_NodeId_equal` (defined outside the excerpt)
is exact structural equality of the identifier, not a prefix or
namespace-only match. -/
def UA_NodeId_equal (a b : UA_NodeId) : Bool :=
  a = b

/-- The session record fields this core reads or writes.  `channel` is the
non-owning back-reference to a transport object, identified by a channel
handle; `none` models a null channel pointer. -/
structure UA_Session where
  sessionId : UA_NodeId
  authenticationToken : UA_NodeId
  channel : Option Nat
  timeout : Int
  expirationDate : Int
deriving DecidableEq, Repr

/-- The heap of secure channels: each channel handle maps to the channel's
`session` slot (`some sid` when the channel's forward pointer refers to the
session with identifier `sid`, `none` when it is null). -/
def ChannelHeap : Type := Nat → Option UA_NodeId

/-- Write the `session` slot of channel `cid` (models
`channel->session = v`). -/
def ChannelHeap.set (chs : ChannelHeap) (cid : Nat) (v : Option UA_NodeId) : ChannelHeap :=
  fun c => if c = cid then v else chs c

/-- The `UA_SessionManager` structure: session list (`LIST_INSERT_HEAD`
order), configuration, identifier counter and live-session counter. -/
structure UA_SessionManager where
  sessions : List UA_Session
  maxSessionCount : Nat
  lastSessionId : Nat
  maxSessionLifeTime : Nat
  currentSessionCount : Nat
deriving Repr

/-- `UA_SessionManager_init`: empty table, configuration stored, counter
seeded, live count zero.  The C function returns `UA_STATUSCODE_GOOD`
unconditionally, so only the resulting state is modelled.  The `% 2 ^ 32`
reductions record that the C parameters are `UA_UInt32`. -/
def UA_SessionManager_init (maxSessionCount maxSessionLifeTime startSessionId : Nat) :
    UA_SessionManager :=
  { sessions := []
    maxSessionCount := maxSessionCount % 2 ^ 32
    lastSessionId := startSessionId % 2 ^ 32
    maxSessionLifeTime := maxSessionLifeTime % 2 ^ 32
    currentSessionCount := 0 }

/-- The `LIST_FOREACH`-with-break scan of `getSessionById` and
`removeSession`: first session whose `sessionId` structurally equals the
argument. -/
def findSessionById (sessions : List UA_Session) (sessionId : UA_NodeId) : Option UA_Session :=
  sessions.find? (fun s => UA_NodeId_equal s.sessionId sessionId)

/-- The scan of `getSessionByToken`: first session whose
`authenticationToken` structurally equals the argument. -/
def findSessionByToken (sessions : List UA_Session) (token : UA_NodeId) : Option UA_Session :=
  sessions.find? (fun s => UA_NodeId_equal s.authenticationToken token)

/-- `LIST_REMOVE` of the entry the scan stopped at: drop the first session
whose `sessionId` structurally equals the argument. -/
def removeFirstById : List UA_Session → UA_NodeId → List UA_Session
  | [], _ => []
  | s :: rest, sid =>
    if UA_NodeId_equal s.sessionId sid then rest else s :: removeFirstById rest sid

/-- `UA_SessionManager_getSessionById`.  The source checks the manager
handle for `UA_NULL` first, so the null handle is an ordinary error return
here.  Note both the null-handle branch and the not-found branch return
`UA_STATUSCODE_BADINTERNALERROR`.  Lookups do not mutate the table and take
no notion of current time, so expiration cannot be evaluated. -/
def UA_SessionManager_getSessionById (sessionManager : Option UA_SessionManager)
    (sessionId : UA_NodeId) : Nat × Option UA_Session :=
  match sessionManager with
  | none => (UA_STATUSCODE_BADINTERNALERROR, none)
  | some m =>
    match findSessionById m.sessions sessionId with
    | none => (UA_STATUSCODE_BADINTERNALERROR, none)
    | some s => (UA_STATUSCODE_GOOD, some s)

/-- `UA_SessionManager_getSessionByToken`: same shape as the lookup by
identifier, matched against `authenticationToken`. -/
def UA_SessionManager_getSessionByToken (sessionManager : Option UA_SessionManager)
    (token : UA_NodeId) : Nat × Option UA_Session :=
  match sessionManager with
  | none => (UA_STATUSCODE_BADINTERNALERROR, none)
  | some m =>
    match findSessionByToken m.sessions token with
    | none => (UA_STATUSCODE_BADINTERNALERROR, none)
    | some s => (UA_STATUSCODE_GOOD, some s)

/-- `UA_SessionManager_createSession` on a non-null manager.
Arguments beyond the source signature: `allocOk` is the `UA_malloc` oracle
(`false` models allocation failure) and `now` is the current time consumed
by `UA_Session_setExpirationDate`.  Returns (status, updated manager,
created session).  Field-by-field translation of the source:
capacity guard, allocation, `sessionId` from `lastSessionId++` (namespace 1,
numeric), `authenticationToken` from the incremented counter, `channel`
stored, `timeout` clamped, expiration date set, `currentSessionCount++`,
`LIST_INSERT_HEAD`.  `UA_Session_setExpirationDate` is modelled from the
spec: it derives `expirationDate` from `timeout` and the current time. -/
def UA_SessionManager_createSession (m : UA_SessionManager) (channel : Option Nat)
    (requestedSessionTimeout : Int) (allocOk : Bool) (now : Int) :
    Nat × UA_SessionManager × Option UA_Session :=
  if m.maxSessionCount ≤ m.currentSessionCount then
    (UA_STATUSCODE_BADTOOMANYSESSIONS, m, none)
  else if allocOk = false then
    (UA_STATUSCODE_BADOUTOFMEMORY, m, none)
  else
    let sid : UA_NodeId := ⟨1, m.lastSessionId⟩
    let lastAfter : Nat := (m.lastSessionId + 1) % 2 ^ 32
    let tok : UA_NodeId := ⟨1, lastAfter⟩
    let tmo : Int :=
      if requestedSessionTimeout ≤ (m.maxSessionLifeTime : Int) ∧ 0 < requestedSessionTimeout
      then requestedSessionTimeout else (m.maxSessionLifeTime : Int)
    let s : UA_Session :=
      { sessionId := sid, authenticationToken := tok, channel := channel,
        timeout := tmo, expirationDate := now + tmo }
    (UA_STATUSCODE_GOOD,
      { m with
        sessions := s :: m.sessions
        lastSessionId := lastAfter
        currentSessionCount := (m.currentSessionCount + 1) % 2 ^ 32 },
      some s)

/-- `UA_SessionManager_createSession` as called through the manager handle.
The source performs no `UA_NULL` check before reading
`sessionManager->currentSessionCount`, so a null handle is a null-pointer
dereference: modelled as `none` (crash), never an error return. -/
def UA_SessionManager_createSession_fromHandle (sessionManager : Option UA_SessionManager)
    (channel : Option Nat) (requestedSessionTimeout : Int) (allocOk : Bool) (now : Int) :
    Option (Nat × UA_SessionManager × Option UA_Session) :=
  match sessionManager with
  | none => none
  | some m => some (UA_SessionManager_createSession m channel requestedSessionTimeout allocOk now)

/-- `UA_SessionManager_removeSession` on a non-null manager.  Scan for the
first structural match on `sessionId`; if absent return
`UA_STATUSCODE_BADINTERNALERROR`; if found, unlink the entry, null the
channel back-pointer when `channel` is set, release and free the record.
The source does NOT touch `currentSessionCount` here.  Returns
(status, updated manager, updated channel heap). -/
def UA_SessionManager_removeSession (m : UA_SessionManager) (chs : ChannelHeap)
    (sessionId : UA_NodeId) : Nat × UA_SessionManager × ChannelHeap :=
  match findSessionById m.sessions sessionId with
  | none => (UA_STATUSCODE_BADINTERNALERROR, m, chs)
  | some cur =>
    let chs2 : ChannelHeap :=
      match cur.channel with
      | some cid => chs.set cid none
      | none => chs
    (UA_STATUSCODE_GOOD, { m with sessions := removeFirstById m.sessions sessionId }, chs2)

/-- `UA_SessionManager_removeSession` as called through the manager handle.
The source performs no `UA_NULL` check: `LIST_FOREACH` immediately
dereferences the handle, so a null handle is a crash (`none`). -/
def UA_SessionManager_removeSession_fromHandle (sessionManager : Option UA_SessionManager)
    (chs : ChannelHeap) (sessionId : UA_NodeId) :
    Option (Nat × UA_SessionManager × ChannelHeap) :=
  match sessionManager with
  | none => none
  | some m => some (UA_SessionManager_removeSession m chs sessionId)

/-- The channel-clearing pass of `UA_SessionManager_deleteMembers`: walk the
session list in order, nulling each attached channel's `session` slot. -/
def clearChannels : List UA_Session → ChannelHeap → ChannelHeap
  | [], chs => chs
  | s :: rest, chs =>
    clearChannels rest (match s.channel with
      | some cid => chs.set cid none
      | none => chs)

/-- `UA_SessionManager_deleteMembers` (bulk teardown): the while loop visits
every list entry once, unlinks it, clears the channel back-pointer when set,
releases and frees the record.  `currentSessionCount` (and the rest of the
manager) is left untouched by the source. -/
def UA_SessionManager_deleteMembers (m : UA_SessionManager) (chs : ChannelHeap) :
    UA_SessionManager × ChannelHeap :=
  ({ m with sessions := [] }, clearChannels m.sessions chs)

/-- A state of the whole model: the session table plus the channel heap. -/
structure World where
  mgr : UA_SessionManager
  channels : ChannelHeap

/-- The operations of the table, for reachability statements. -/
inductive Op where
  | create (channel : Option Nat) (requestedSessionTimeout : Int) (allocOk : Bool) (now : Int)
  | remove (sessionId : UA_NodeId)
  | getById (sessionId : UA_NodeId)
  | getByToken (token : UA_NodeId)
  | teardownAll

/-- Apply one operation to a world.  Lookups mutate nothing;
`createSession` never writes to a channel; `removeSession` and
`deleteMembers` may clear channel slots. -/
def applyOp (w : World) : Op → World
  | Op.create ch rt ok now =>
    { w with mgr := (UA_SessionManager_createSession w.mgr ch rt ok now).2.1 }
  | Op.remove sid =>
    let r := UA_SessionManager_removeSession w.mgr w.channels sid
    { mgr := r.2.1, channels := r.2.2 }
  | Op.getById _ => w
  | Op.getByToken _ => w
  | Op.teardownAll =>
    let r := UA_SessionManager_deleteMembers w.mgr w.channels
    { mgr := r.1, channels := r.2 }

/-- Run a list of operations from a world. -/
def runOps (w : World) : List Op → World
  | [] => w
  | op :: rest => runOps (applyOp w op) rest

/-- The world right after `init`, with every channel slot null. -/
def initWorld (maxSessionCount maxSessionLifeTime startSessionId : Nat) : World :=
  { mgr := UA_SessionManager_init maxSessionCount maxSessionLifeTime startSessionId
    channels := fun _ => none }

/-- Number of `create` operations in a run that return
`UA_STATUSCODE_GOOD`, evaluated along the evolving state. -/
def countCreateSuccesses (w : World) : List Op → Nat
  | [] => 0
  | op :: rest =>
    (match op with
      | Op.create ch rt ok now =>
        if (UA_SessionManager_createSession w.mgr ch rt ok now).1 = UA_STATUSCODE_GOOD
        then 1 else 0
      | _ => 0) + countCreateSuccesses (applyOp w op) rest

/-- `n` consecutive `createSession` calls with fixed channel, requested
timeout and clock, collecting the created sessions in creation order; a
failing call creates nothing and the remaining calls still run (each would
fail identically). -/
def createMany (ch : Option Nat) (rt : Int) (now : Int) :
    UA_SessionManager → Nat → UA_SessionManager × List UA_Session
  | m, 0 => (m, [])
  | m, n + 1 =>
    match UA_SessionManager_createSession m ch rt true now with
    | (_, m2, some s) =>
      let r := createMany ch rt now m2 n
      (r.1, s :: r.2)
    | (_, m2, none) =>
      let r := createMany ch rt now m2 n
      (r.1, r.2)

/-- The session the `i`-th successful creation from manager `m` produces
(no counter wraparound): identifier `lastSessionId + i`, token one more,
all in namespace 1. -/
def sessionAt (m : UA_SessionManager) (ch : Option Nat) (rt : Int) (now : Int)
    (i : Nat) : UA_Session :=
  { sessionId := ⟨1, m.lastSessionId + i⟩
    authenticationToken := ⟨1, m.lastSessionId + i + 1⟩
    channel := ch
    timeout :=
      if rt ≤ (m.maxSessionLifeTime : Int) ∧ 0 < rt then rt else (m.maxSessionLifeTime : Int)
    expirationDate :=
      now + if rt ≤ (m.maxSessionLifeTime : Int) ∧ 0 < rt then rt else (m.maxSessionLifeTime : Int) }

/-- A manager at capacity: `maxSessionCount = 0 ≤ currentSessionCount`. -/
def fullMgr : UA_SessionManager :=
  { sessions := [], maxSessionCount := 0, lastSessionId := 5,
    maxSessionLifeTime := 3600, currentSessionCount := 0 }

/-- A manager with spare capacity. -/
def roomMgr : UA_SessionManager :=
  { sessions := [], maxSessionCount := 4, lastSessionId := 100,
    maxSessionLifeTime := 3600, currentSessionCount := 1 }

/-- A concrete stored session; its `expirationDate` is already in the past,
so it witnesses that lookups ignore expiration. -/
def storedSession : UA_Session :=
  { sessionId := ⟨1, 100⟩, authenticationToken := ⟨1, 101⟩, channel := some 7,
    timeout := 3600, expirationDate := -1 }

/-- A one-session table holding `storedSession`. -/
def lookupMgr : UA_SessionManager :=
  { sessions := [storedSession], maxSessionCount := 2, lastSessionId := 101,
    maxSessionLifeTime := 3600, currentSessionCount := 1 }

/-- One successful creation from a fresh table
(`init(maxSessionCount := 2, maxSessionLifeTime := 3600, startSessionId := 100)`,
channel handle 7, requested timeout 0). -/
def exampleCreate : Nat × UA_SessionManager × Option UA_Session :=
  UA_SessionManager_createSession (UA_SessionManager_init 2 3600 100) (some 7) 0 true 0

/-- Channel heap where channel 7's forward pointer is attached to the
session created in `exampleCreate`. -/
def exampleChannels : ChannelHeap :=
  ChannelHeap.set (fun _ => none) 7 (some ⟨1, 100⟩)

/-- Removing the session created in `exampleCreate` by its identifier. -/
def exampleRemove : Nat × UA_SessionManager × ChannelHeap :=
  UA_SessionManager_removeSession exampleCreate.2.1 exampleChannels ⟨1, 100⟩

/-- Bulk teardown of the one-session table from `exampleCreate`. -/
def exampleTeardown : UA_SessionManager × ChannelHeap :=
  UA_SessionManager_deleteMembers exampleCreate.2.1 exampleChannels

/- ### Helper lemmas (shared) -/

/-- Characterisation of a successful `createSession` step: when the capacity
guard passes, allocation succeeds, and the counter does not wrap, the call
returns `GOOD`, conses the session described by `sessionAt _ _ _ _ 0`, and
advances counter and live count by one. -/
theorem createSession_success (m : UA_SessionManager) (ch : Option Nat) (rt now : Int)
    (h1 : m.currentSessionCount < m.maxSessionCount)
    (h2 : m.lastSessionId + 1 < 2 ^ 32)
    (h3 : m.currentSessionCount + 1 < 2 ^ 32) :
    UA_SessionManager_createSession m ch rt true now =
      (UA_STATUSCODE_GOOD,
        { m with
          sessions := sessionAt m ch rt now 0 :: m.sessions
          lastSessionId := m.lastSessionId + 1
          currentSessionCount := m.currentSessionCount + 1 },
        some (sessionAt m ch rt now 0)) := by
  unfold UA_SessionManager_createSession sessionAt
  rw [if_neg (by omega)]
  simp [Nat.mod_eq_of_lt h2, Nat.mod_eq_of_lt h3]
  omega

/-- No operation changes `maxSessionCount`. -/
theorem applyOp_max_eq (w : World) (op : Op) :
    (applyOp w op).mgr.maxSessionCount = w.mgr.maxSessionCount := by
  cases op with
  | create ch rt ok now =>
    simp only [applyOp]
    unfold UA_SessionManager_createSession
    by_cases hg : w.mgr.maxSessionCount ≤ w.mgr.currentSessionCount
    · simp [hg]
    · cases ok <;> simp [hg]
  | remove sid =>
    simp only [applyOp]
    unfold UA_SessionManager_removeSession
    cases hf : findSessionById w.mgr.sessions sid <;> simp [hf]
  | getById sid => rfl
  | getByToken tok => rfl
  | teardownAll => rfl

/-- One step of live-count accounting: `currentSessionCount` grows by one
exactly on a `create` operation that returns `GOOD`, and is unchanged by
every other operation (including `remove` and `teardownAll`). -/
theorem applyOp_count_eq (w : World) (op : Op) (h : w.mgr.maxSessionCount < 2 ^ 32) :
    (applyOp w op).mgr.currentSessionCount
      = w.mgr.currentSessionCount + countCreateSuccesses w [op] := by
  cases op with
  | create ch rt ok now =>
    simp only [applyOp, countCreateSuccesses]
    unfold UA_SessionManager_createSession
    by_cases hg : w.mgr.maxSessionCount ≤ w.mgr.currentSessionCount
    · simp [hg, UA_STATUSCODE_BADTOOMANYSESSIONS, UA_STATUSCODE_GOOD]
    · cases ok
      · simp [hg, UA_STATUSCODE_BADOUTOFMEMORY, UA_STATUSCODE_GOOD]
      · simp only [hg, if_false, if_neg, Bool.true_eq_false]
        simp [Nat.mod_eq_of_lt (show w.mgr.currentSessionCount + 1 < 2 ^ 32 by omega)]
        omega
  | remove sid =>
    simp only [applyOp, countCreateSuccesses]
    unfold UA_SessionManager_removeSession
    cases hf : findSessionById w.mgr.sessions sid <;> simp [hf]
  | getById sid => simp [applyOp, countCreateSuccesses]
  | getByToken tok => simp [applyOp, countCreateSuccesses]
  | teardownAll => simp [applyOp, countCreateSuccesses, UA_SessionManager_deleteMembers]

/-- No run of operations changes `maxSessionCount`. -/
theorem runOps_max_eq (w : World) (ops : List Op) :
    (runOps w ops).mgr.maxSessionCount = w.mgr.maxSessionCount := by
  induction ops generalizing w with
  | nil => rfl
  | cons op rest ih =>
    simp only [runOps]
    rw [ih, applyOp_max_eq]

/-- Accounting over a run: the live count after a run equals the live count
before it plus the number of successful `create` operations in the run. -/
theorem runOps_count_eq (w : World) (ops : List Op) (h : w.mgr.maxSessionCount < 2 ^ 32) :
    (runOps w ops).mgr.currentSessionCount
      = w.mgr.currentSessionCount + countCreateSuccesses w ops := by
  induction ops generalizing w with
  | nil => simp [runOps, countCreateSuccesses]
  | cons op rest ih =>
    simp only [runOps, countCreateSuccesses]
    rw [ih (applyOp w op) (by rw [applyOp_max_eq]; exact h)]
    have h2 := applyOp_count_eq w op h
    simp only [countCreateSuccesses] at h2
    omega

/- ### Claim theorems -/

/-- Claim C10: in every state reachable from `init`, `currentSessionCount`
equals the number of successful `createSession` calls so far (so it is
monotonically non-decreasing: no operation, in particular not
`removeSession` or `teardownAll`, ever lowers it), and whenever it has
reached `maxSessionCount`, `createSession` fails with `TooManySessions` and
changes nothing — regardless of intervening removals. -/
theorem sessionCount_monotone_capacity_latch (maxSC maxLT sid : Nat) (ops : List Op) :
    (runOps (initWorld maxSC maxLT sid) ops).mgr.currentSessionCount
        = countCreateSuccesses (initWorld maxSC maxLT sid) ops ∧
    (∀ more : List Op,
      (runOps (initWorld maxSC maxLT sid) ops).mgr.currentSessionCount ≤
        (runOps (runOps (initWorld maxSC maxLT sid) ops) more).mgr.currentSessionCount) ∧
    ((runOps (initWorld maxSC maxLT sid) ops).mgr.maxSessionCount ≤
        (runOps (initWorld maxSC maxLT sid) ops).mgr.currentSessionCount →
      ∀ (ch : Option Nat) (rt : Int) (ok : Bool) (now : Int),
        UA_SessionManager_createSession (runOps (initWorld maxSC maxLT sid) ops).mgr ch rt ok now
          = (UA_STATUSCODE_BADTOOMANYSESSIONS, (runOps (initWorld maxSC maxLT sid) ops).mgr, none)) := by
  have hmax : (initWorld maxSC maxLT sid).mgr.maxSessionCount < 2 ^ 32 := by
    simp [initWorld, UA_SessionManager_init]
    omega
  refine ⟨?_, ?_, ?_⟩
  · have h := runOps_count_eq (initWorld maxSC maxLT sid) ops hmax
    simpa [initWorld, UA_SessionManager_init] using h
  · intro more
    have hmax2 : (runOps (initWorld maxSC maxLT sid) ops).mgr.maxSessionCount < 2 ^ 32 := by
      rw [runOps_max_eq]
      exact hmax
    rw [runOps_count_eq _ more hmax2]
    exact Nat.le_add_right _ _
  · intro hcap ch rt ok now
    unfold UA_SessionManager_createSession
    rw [if_pos hcap]

/-- Witness for C10: with `maxSessionCount = 1`, after one successful
creation and one removal of that session, `createSession` still fails with
`TooManySessions` and leaves the table unchanged. -/
theorem sessionCount_monotone_capacity_latch_witness :
    UA_SessionManager_createSession
        (runOps (initWorld 1 3600 100) [Op.create none 5 true 0, Op.remove ⟨1, 100⟩]).mgr
        none 5 true 0
      = (UA_STATUSCODE_BADTOOMANYSESSIONS,
         (runOps (initWorld 1 3600 100) [Op.create none 5 true 0, Op.remove ⟨1, 100⟩]).mgr,
         none) :=
  (sessionCount_monotone_capacity_latch 1 3600 100
    [Op.create none 5 true 0, Op.remove ⟨1, 100⟩]).2.2 (by decide) none 5 true 0

/-- Claim C1 (code bug): removing the only session by its identifier
returns `GOOD`, empties the table, clears the transport's session slot, and
a second removal of the same identifier fails with an error code rather
than crashing — but `currentSessionCount` is still 1 afterwards:
`UA_SessionManager_removeSession` contains no decrement. -/
theorem removeSession_misses_count_decrement :
    exampleCreate.1 = UA_STATUSCODE_GOOD ∧
    exampleCreate.2.1.currentSessionCount = 1 ∧
    exampleRemove.1 = UA_STATUSCODE_GOOD ∧
    exampleRemove.2.1.sessions = [] ∧
    exampleRemove.2.2 7 = none ∧
    exampleRemove.2.1.currentSessionCount = 1 ∧
    (UA_SessionManager_removeSession exampleRemove.2.1 exampleRemove.2.2 ⟨1, 100⟩).1
      = UA_STATUSCODE_BADINTERNALERROR := by
  decide

/-- Claim C2 (code bug): after `create` then `remove` from a fresh table,
`currentSessionCount = 1` while the table holds 0 sessions, violating the
invariant `currentSessionCount = |sessions|`. -/
theorem sessionCount_invariant_violated :
    (runOps (initWorld 2 3600 100)
        [Op.create (some 7) 0 true 0, Op.remove ⟨1, 100⟩]).mgr.currentSessionCount = 1 ∧
    (runOps (initWorld 2 3600 100)
        [Op.create (some 7) 0 true 0, Op.remove ⟨1, 100⟩]).mgr.sessions.length = 0 := by
  decide

/-- Claim C3 (code bug): tearing down a table with one live session leaves
the table empty and clears the attached channel's session slot, but
`currentSessionCount` remains 1 — `UA_SessionManager_deleteMembers` never
resets the counter to 0. -/
theorem deleteMembers_misses_count_reset :
    exampleTeardown.1.sessions = [] ∧
    exampleTeardown.2 7 = none ∧
    exampleTeardown.1.currentSessionCount = 1 := by
  decide

/-- Claim C5: with the table at capacity `createSession` fails with
`TooManySessions` for every allocation outcome (the guard precedes the
allocation) and returns the manager unmodified; below capacity but with
allocation failing it fails with `OutOfMemory`, again with the manager
unmodified. -/
theorem createSession_failure_paths (m : UA_SessionManager) (ch : Option Nat) (rt now : Int) :
    (m.maxSessionCount ≤ m.currentSessionCount →
      ∀ allocOk : Bool,
        UA_SessionManager_createSession m ch rt allocOk now
          = (UA_STATUSCODE_BADTOOMANYSESSIONS, m, none)) ∧
    (m.currentSessionCount < m.maxSessionCount →
      UA_SessionManager_createSession m ch rt false now
        = (UA_STATUSCODE_BADOUTOFMEMORY, m, none)) := by
  constructor
  · intro hcap allocOk
    unfold UA_SessionManager_createSession
    rw [if_pos hcap]
  · intro hroom
    unfold UA_SessionManager_createSession
    rw [if_neg (by omega)]
    simp

/-- Witness for C5: a table at capacity rejects creation with
`TooManySessions` even when allocation would succeed; a table with room
rejects with `OutOfMemory` when allocation fails. -/
theorem createSession_failure_paths_witness :
    UA_SessionManager_createSession fullMgr none 10 true 0
      = (UA_STATUSCODE_BADTOOMANYSESSIONS, fullMgr, none) ∧
    UA_SessionManager_createSession roomMgr none 10 false 0
      = (UA_STATUSCODE_BADOUTOFMEMORY, roomMgr, none) :=
  ⟨(createSession_failure_paths fullMgr none 10 0).1 (by decide) true,
   (createSession_failure_paths roomMgr none 10 0).2 (by decide)⟩

/-- Claim C9 (counterexample): calling `createSession` through a null table
handle does not produce an error result code — the source dereferences the
handle without any check, modelled as a crash (`none`). -/
theorem createSession_null_handle_crashes :
    UA_SessionManager_createSession_fromHandle none none 0 true 0 = none :=
  rfl

/-- Claim C9 (amended): only `getSessionById` and `getSessionByToken` check
the handle and report `BADINTERNALERROR` on a null table; `createSession`
and `removeSession` perform no null check and dereference the null handle
(crash, modelled as `none`). -/
theorem null_handle_behaviour (sid tok : UA_NodeId) (chs : ChannelHeap)
    (ch : Option Nat) (rt now : Int) (ok : Bool) :
    UA_SessionManager_getSessionById none sid = (UA_STATUSCODE_BADINTERNALERROR, none) ∧
    UA_SessionManager_getSessionByToken none tok = (UA_STATUSCODE_BADINTERNALERROR, none) ∧
    UA_SessionManager_createSession_fromHandle none ch rt ok now = none ∧
    UA_SessionManager_removeSession_fromHandle none chs sid = none :=
  ⟨rfl, rfl, rfl, rfl⟩

/-- Claim C6: a successful creation from counter value `c` (no numeric
wraparound) issues `sessionId` with numeric value `c`, leaves
`lastSessionId = c + 1`, issues the `authenticationToken` with numeric
value `c + 1` — the counter is advanced exactly once — and the two
identifiers of the session are distinct. -/
theorem createSession_counter_scheme (m : UA_SessionManager) (ch : Option Nat) (rt now : Int)
    (h1 : m.currentSessionCount < m.maxSessionCount)
    (h2 : m.lastSessionId + 1 < 2 ^ 32) :
    (UA_SessionManager_createSession m ch rt true now).1 = UA_STATUSCODE_GOOD ∧
    ((UA_SessionManager_createSession m ch rt true now).2.2.map (fun s => s.sessionId))
      = some ⟨1, m.lastSessionId⟩ ∧
    (UA_SessionManager_createSession m ch rt true now).2.1.lastSessionId
      = m.lastSessionId + 1 ∧
    ((UA_SessionManager_createSession m ch rt true now).2.2.map (fun s => s.authenticationToken))
      = some ⟨1, m.lastSessionId + 1⟩ ∧
    ((UA_SessionManager_createSession m ch rt true now).2.2.map (fun s => s.sessionId))
      ≠ ((UA_SessionManager_createSession m ch rt true now).2.2.map (fun s => s.authenticationToken)) := by
  unfold UA_SessionManager_createSession
  rw [if_neg (by omega)]
  simp [Nat.mod_eq_of_lt h2, UA_NodeId.mk.injEq]
  omega

/-- Witness for C6: from counter value 100, the created session gets
identifier 100, the counter moves to 101, and the token is 101. -/
theorem createSession_counter_scheme_witness :
    (UA_SessionManager_createSession roomMgr none 10 true 0).1 = UA_STATUSCODE_GOOD ∧
    ((UA_SessionManager_createSession roomMgr none 10 true 0).2.2.map (fun s => s.sessionId))
      = some ⟨1, 100⟩ ∧
    (UA_SessionManager_createSession roomMgr none 10 true 0).2.1.lastSessionId = 101 ∧
    ((UA_SessionManager_createSession roomMgr none 10 true 0).2.2.map (fun s => s.authenticationToken))
      = some ⟨1, 101⟩ ∧
    ((UA_SessionManager_createSession roomMgr none 10 true 0).2.2.map (fun s => s.sessionId))
      ≠ ((UA_SessionManager_createSession roomMgr none 10 true 0).2.2.map (fun s => s.authenticationToken)) :=
  createSession_counter_scheme roomMgr none 10 0 (by decide) (by decide)

/-- Claim C7: the stored timeout is the requested one exactly when
`0 < requested ≤ maxSessionLifeTime`, and `maxSessionLifeTime` otherwise
(in particular for `requested = 0` and for `requested > maxSessionLifeTime`). -/
theorem createSession_timeout_clamp (m : UA_SessionManager) (ch : Option Nat) (rt now : Int)
    (h1 : m.currentSessionCount < m.maxSessionCount) :
    (0 < rt ∧ rt ≤ (m.maxSessionLifeTime : Int) →
      ((UA_SessionManager_createSession m ch rt true now).2.2.map (fun s => s.timeout))
        = some rt) ∧
    (¬(0 < rt ∧ rt ≤ (m.maxSessionLifeTime : Int)) →
      ((UA_SessionManager_createSession m ch rt true now).2.2.map (fun s => s.timeout))
        = some ((m.maxSessionLifeTime : Int))) := by
  unfold UA_SessionManager_createSession
  rw [if_neg (by omega)]
  constructor
  · intro hin
    simp [hin.1, hin.2]
  · intro hout
    have hneg : ¬(rt ≤ (m.maxSessionLifeTime : Int) ∧ 0 < rt) := by tauto
    simp [hneg]

/-- Witness for C7: with `maxSessionLifeTime = 3600`, a request of 10 is
kept, while requests of 0 and of 5000 are clamped to 3600. -/
theorem createSession_timeout_clamp_witness :
    ((UA_SessionManager_createSession roomMgr none 10 true 0).2.2.map (fun s => s.timeout))
      = some 10 ∧
    ((UA_SessionManager_createSession roomMgr none 0 true 0).2.2.map (fun s => s.timeout))
      = some ((roomMgr.maxSessionLifeTime : Int)) ∧
    ((UA_SessionManager_createSession roomMgr none 5000 true 0).2.2.map (fun s => s.timeout))
      = some ((roomMgr.maxSessionLifeTime : Int)) :=
  ⟨(createSession_timeout_clamp roomMgr none 10 0 (by decide)).1 (by constructor <;> decide),
   (createSession_timeout_clamp roomMgr none 0 0 (by decide)).2 (by decide),
   (createSession_timeout_clamp roomMgr none 5000 0 (by decide)).2 (by decide)⟩

/-- Claim C8 (counterexample): looking up an identifier absent from the
table fails with `BADINTERNALERROR`, which is not the `BADNOTFOUND` code
the claim names — the source uses one status code for the not-found case
and the invalid-handle case alike. -/
theorem lookup_absent_reports_internal_error :
    (UA_SessionManager_getSessionById (some (UA_SessionManager_init 2 3600 100)) ⟨1, 100⟩).1
      = UA_STATUSCODE_BADINTERNALERROR ∧
    UA_STATUSCODE_BADINTERNALERROR ≠ UA_STATUSCODE_BADNOTFOUND := by
  decide

/-- Claim C8 (amended): `getSessionById` (resp. `getSessionByToken`)
returns exactly the live session whose `sessionId`
(resp. `authenticationToken`) equals the argument — with no constraint on
that session's `expirationDate`, and indeed the lookups take no clock, so
expiration is never evaluated — and fails with `BADINTERNALERROR` both
when no such session exists and when the table handle is null.  Lookups
return no updated state: the table is unmodified by construction. -/
theorem getSession_lookup_semantics (m : UA_SessionManager) (sid tok : UA_NodeId) :
    (UA_SessionManager_getSessionById none sid = (UA_STATUSCODE_BADINTERNALERROR, none)) ∧
    ((∀ s ∈ m.sessions, s.sessionId ≠ sid) →
      UA_SessionManager_getSessionById (some m) sid = (UA_STATUSCODE_BADINTERNALERROR, none)) ∧
    (∀ s ∈ m.sessions, s.sessionId = sid →
      (∀ t ∈ m.sessions, t.sessionId = sid → t = s) →
      UA_SessionManager_getSessionById (some m) sid = (UA_STATUSCODE_GOOD, some s)) ∧
    (UA_SessionManager_getSessionByToken none tok = (UA_STATUSCODE_BADINTERNALERROR, none)) ∧
    ((∀ s ∈ m.sessions, s.authenticationToken ≠ tok) →
      UA_SessionManager_getSessionByToken (some m) tok = (UA_STATUSCODE_BADINTERNALERROR, none)) ∧
    (∀ s ∈ m.sessions, s.authenticationToken = tok →
      (∀ t ∈ m.sessions, t.authenticationToken = tok → t = s) →
      UA_SessionManager_getSessionByToken (some m) tok = (UA_STATUSCODE_GOOD, some s)) := by
  refine ⟨rfl, ?_, ?_, rfl, ?_, ?_⟩
  · intro habs
    have hf : findSessionById m.sessions sid = none := by
      unfold findSessionById
      rw [List.find?_eq_none]
      intro s hs
      simp only [UA_NodeId_equal, decide_eq_true_eq]
      exact habs s hs
    simp [UA_SessionManager_getSessionById, hf]
  · intro s hs hsid huniq
    have hf : findSessionById m.sessions sid = some s := by
      cases hfind : findSessionById m.sessions sid with
      | none =>
        exfalso
        unfold findSessionById at hfind
        rw [List.find?_eq_none] at hfind
        exact hfind s hs (by simp [UA_NodeId_equal, hsid])
      | some t =>
        unfold findSessionById at hfind
        have h1 := List.find?_some hfind
        have h2 : t ∈ m.sessions := List.mem_of_find?_eq_some hfind
        have h3 : t.sessionId = sid := by
          simpa [UA_NodeId_equal] using h1
        rw [huniq t h2 h3]
    simp [UA_SessionManager_getSessionById, hf]
  · intro habs
    have hf : findSessionByToken m.sessions tok = none := by
      unfold findSessionByToken
      rw [List.find?_eq_none]
      intro s hs
      simp only [UA_NodeId_equal, decide_eq_true_eq]
      exact habs s hs
    simp [UA_SessionManager_getSessionByToken, hf]
  · intro s hs htok huniq
    have hf : findSessionByToken m.sessions tok = some s := by
      cases hfind : findSessionByToken m.sessions tok with
      | none =>
        exfalso
        unfold findSessionByToken at hfind
        rw [List.find?_eq_none] at hfind
        exact hfind s hs (by simp [UA_NodeId_equal, htok])
      | some t =>
        unfold findSessionByToken at hfind
        have h1 := List.find?_some hfind
        have h2 : t ∈ m.sessions := List.mem_of_find?_eq_some hfind
        have h3 : t.authenticationToken = tok := by
          simpa [UA_NodeId_equal] using h1
        rw [huniq t h2 h3]
    simp [UA_SessionManager_getSessionByToken, hf]

/-- Witness for C8: in a one-session table whose session is already
expired (`expirationDate = -1`), lookup by identifier and by token both
return that very session with `GOOD`, and lookup of a never-issued
identifier fails with `BADINTERNALERROR`. -/
theorem getSession_lookup_semantics_witness :
    UA_SessionManager_getSessionById (some lookupMgr) ⟨1, 100⟩
      = (UA_STATUSCODE_GOOD, some storedSession) ∧
    UA_SessionManager_getSessionByToken (some lookupMgr) ⟨1, 101⟩
      = (UA_STATUSCODE_GOOD, some storedSession) ∧
    UA_SessionManager_getSessionById (some lookupMgr) ⟨1, 55⟩
      = (UA_STATUSCODE_BADINTERNALERROR, none) :=
  ⟨(getSession_lookup_semantics lookupMgr ⟨1, 100⟩ ⟨1, 101⟩).2.2.1 storedSession
      (by decide) (by decide) (by decide),
   (getSession_lookup_semantics lookupMgr ⟨1, 100⟩ ⟨1, 101⟩).2.2.2.2.2 storedSession
      (by decide) (by decide) (by decide),
   (getSession_lookup_semantics lookupMgr ⟨1, 55⟩ ⟨1, 101⟩).2.1 (by decide)⟩

/-- Claim C4 (counterexample): two back-to-back successful creations from a
fresh table with `startSessionId = 100`: the first session's
`authenticationToken` is `(1, 101)` and the second session's `sessionId` is
also `(1, 101)` — a token issued to one session IS later issued as another
session's identifier. -/
theorem second_sessionId_equals_first_token :
    (UA_SessionManager_createSession (UA_SessionManager_init 2 3600 100) none 0 true 0).1
      = UA_STATUSCODE_GOOD ∧
    (UA_SessionManager_createSession
        (UA_SessionManager_createSession (UA_SessionManager_init 2 3600 100) none 0 true 0).2.1
        none 0 true 0).1 = UA_STATUSCODE_GOOD ∧
    ((UA_SessionManager_createSession (UA_SessionManager_init 2 3600 100) none 0 true 0).2.2.map
        (fun s => s.authenticationToken)) = some ⟨1, 101⟩ ∧
    ((UA_SessionManager_createSession
        (UA_SessionManager_createSession (UA_SessionManager_init 2 3600 100) none 0 true 0).2.1
        none 0 true 0).2.2.map (fun s => s.sessionId)) = some ⟨1, 101⟩ := by
  decide

/-- Closed form of `n` consecutive successful creations (capacity available
and no counter wraparound): the created sessions are exactly
`sessionAt m _ _ _ i` for `i = 0, …, n-1`, and the live count grew by `n`
(each call succeeded). -/
theorem createMany_eq (ch : Option Nat) (rt now : Int) :
    ∀ (n : Nat) (m : UA_SessionManager),
      m.currentSessionCount + n ≤ m.maxSessionCount →
      m.maxSessionCount < 2 ^ 32 →
      m.lastSessionId + n < 2 ^ 32 →
      (createMany ch rt now m n).2 = (List.range n).map (sessionAt m ch rt now) ∧
      (createMany ch rt now m n).1.currentSessionCount = m.currentSessionCount + n := by
  intro n
  induction n with
  | zero =>
    intro m h1 h2 h3
    simp [createMany]
  | succ n ih =>
    intro m h1 h2 h3
    simp only [createMany]
    rw [createSession_success m ch rt now (by omega) (by omega) (by omega)]
    dsimp only
    have ihm := ih
      { m with
        sessions := sessionAt m ch rt now 0 :: m.sessions
        lastSessionId := m.lastSessionId + 1
        currentSessionCount := m.currentSessionCount + 1 }
      (by dsimp only; omega) (by dsimp only; omega) (by dsimp only; omega)
    constructor
    · rw [ihm.1]
      rw [List.range_succ_eq_map, List.map_cons, List.map_map]
      congr 1
      apply List.map_congr_left
      intro i hi
      simp [Function.comp, sessionAt, UA_Session.mk.injEq, UA_NodeId.mk.injEq]
      omega
    · rw [ihm.2]
      dsimp only
      omega

/-- Claim C4 (amended): while capacity remains and the counter does not
wrap, every `createSession` call succeeds; across the created sessions all
`sessionId`s are pairwise distinct, all `authenticationToken`s are pairwise
distinct, no session's `sessionId` equals its own token, and no earlier
session's `sessionId` equals a later session's token — but a session's
`sessionId` DOES equal the immediately preceding session's
`authenticationToken` (the `Chain'` conjunct), which is the one
distinctness direction the original claim wrongly included. -/
theorem createMany_identifier_distinctness (m : UA_SessionManager) (ch : Option Nat)
    (rt now : Int) (n : Nat)
    (h1 : m.currentSessionCount + n ≤ m.maxSessionCount)
    (h2 : m.maxSessionCount < 2 ^ 32)
    (h3 : m.lastSessionId + n < 2 ^ 32) :
    (createMany ch rt now m n).2.length = n ∧
    (createMany ch rt now m n).1.currentSessionCount = m.currentSessionCount + n ∧
    (createMany ch rt now m n).2.Pairwise (fun a b => a.sessionId ≠ b.sessionId) ∧
    (createMany ch rt now m n).2.Pairwise
      (fun a b => a.authenticationToken ≠ b.authenticationToken) ∧
    List.Forall (fun s => s.sessionId ≠ s.authenticationToken) (createMany ch rt now m n).2 ∧
    (createMany ch rt now m n).2.Pairwise (fun a b => a.sessionId ≠ b.authenticationToken) ∧
    (createMany ch rt now m n).2.Chain' (fun a b => b.sessionId = a.authenticationToken) := by
  obtain ⟨hlist, hcount⟩ := createMany_eq ch rt now n m h1 h2 h3
  rw [hlist]
  refine ⟨by simp, hcount, ?_, ?_, ?_, ?_, ?_⟩
  · rw [List.pairwise_map]
    refine (List.pairwise_lt_range n).imp ?_
    intro a b hab
    simp [sessionAt, UA_NodeId.mk.injEq]
    omega
  · rw [List.pairwise_map]
    refine (List.pairwise_lt_range n).imp ?_
    intro a b hab
    simp [sessionAt, UA_NodeId.mk.injEq]
    omega
  · rw [List.forall_iff_forall_mem]
    intro x hx
    obtain ⟨i, hi, rfl⟩ := List.mem_map.mp hx
    simp [sessionAt, UA_NodeId.mk.injEq]
  · rw [List.pairwise_map]
    refine (List.pairwise_lt_range n).imp ?_
    intro a b hab
    simp [sessionAt, UA_NodeId.mk.injEq]
    omega
  · rw [List.chain'_map]
    cases n with
    | zero => simp
    | succ k =>
      rw [List.chain'_range_succ]
      intro i hik
      simp [sessionAt, UA_NodeId.mk.injEq]
      omega

/-- Witness for C4 (amended): three consecutive creations from a table with
room for three more sessions and counter at 100. -/
theorem createMany_identifier_distinctness_witness :
    (createMany none 10 0 roomMgr 3).2.length = 3 ∧
    (createMany none 10 0 roomMgr 3).1.currentSessionCount = roomMgr.currentSessionCount + 3 ∧
    (createMany none 10 0 roomMgr 3).2.Pairwise (fun a b => a.sessionId ≠ b.sessionId) ∧
    (createMany none 10 0 roomMgr 3).2.Pairwise
      (fun a b => a.authenticationToken ≠ b.authenticationToken) ∧
    List.Forall (fun s => s.sessionId ≠ s.authenticationToken) (createMany none 10 0 roomMgr 3).2 ∧
    (createMany none 10 0 roomMgr 3).2.Pairwise (fun a b => a.sessionId ≠ b.authenticationToken) ∧
    (createMany none 10 0 roomMgr 3).2.Chain' (fun a b => b.sessionId = a.authenticationToken) :=
  createMany_identifier_distinctness roomMgr none 10 0 3 (by decide) (by decide) (by decide)
